import Mathlib

/-!
Verification of the environment-configuration and naming/tagging subsystem
of the cdk-init repository (`config/environment.config.ts` and
`lib/shared/base.construct.ts`), shallowly embedded in Lean 4.

The raw input source (`process.env`) is modelled as a record of optional
strings; zod schema validation is modelled as `Except` with the list of
collected field errors; JavaScript `parseInt` is modelled on decimal
strings with an explicit `nan` value.
-/

namespace CdkInit

/-- The `STAGE` enumeration from `envSchema`: `z.enum(['dev', 'stg', 'prod'])`. -/
inductive Stage where
  | dev
  | stg
  | prod
deriving DecidableEq, Repr

/-- String form of a stage, as stored in `process.env.STAGE`. -/
def Stage.str : Stage → String
  | .dev => "dev"
  | .stg => "stg"
  | .prod => "prod"

/-- The raw input source: the environment variables read anywhere in
`config/environment.config.ts`, each possibly absent. -/
structure Env where
  STAGE : Option String := none
  PROJECT : Option String := none
  CDK_REGION : Option String := none
  CDK_ACCOUNT_ID : Option String := none
  CIDR_BLOCK : Option String := none
  VPC_MAX_AZS : Option String := none
  VPC_NAT_GATEWAYS : Option String := none
  RDS_INSTANCE_TYPE : Option String := none
  RDS_MULTI_AZ : Option String := none
  RDS_STORAGE : Option String := none
  RDS_DB_NAME : Option String := none
  RDS_USERNAME : Option String := none
  EC2_INSTANCE_TYPE : Option String := none
  EC2_KEY_NAME : Option String := none
deriving DecidableEq, Repr

/-- `z.enum(['dev', 'stg', 'prod'])` applied to `process.env.STAGE`
(absent input is an invalid-type error in zod). -/
def parseStage : Option String → Except String Stage
  | none => .error "Required"
  | some s =>
    if s = "dev" then .ok .dev
    else if s = "stg" then .ok .stg
    else if s = "prod" then .ok .prod
    else .error "Invalid enum value"

/-- `z.string().min(1, msg)`: rejects absent input and the empty string. -/
def parseMin1 (msg : String) : Option String → Except String String
  | none => .error "Required"
  | some s => if 1 ≤ s.length then .ok s else .error msg

/-- The account-id check `/^\d{12}$/`: exactly 12 ASCII digits. -/
def accountOk (s : String) : Bool :=
  decide (s.length = 12) && s.data.all Char.isDigit

/-- `z.string().regex(/^\d{12}$/, ...)` applied to `process.env.CDK_ACCOUNT_ID`. -/
def parseAccount : Option String → Except String String
  | none => .error "Required"
  | some s =>
    if accountOk s then .ok s
    else .error "CDK_ACCOUNT_ID must be a 12-digit AWS account ID"

/-- A digit group of length 1 to 3, i.e. the regex fragment `\d{1,3}`. -/
def okOctet (l : List Char) : Bool :=
  decide (1 ≤ l.length) && decide (l.length ≤ 3) && l.all Char.isDigit

/-- A digit group of length 1 to 2, i.e. the regex fragment `\d{1,2}`. -/
def okMask (l : List Char) : Bool :=
  decide (1 ≤ l.length) && decide (l.length ≤ 2) && l.all Char.isDigit

/-- Consume one `\d{1,3}\.` group off the front of the character list.
Digits and the literal dot are disjoint character classes, so the regex
group is matched exactly by the maximal leading digit run. -/
def chompOctetDot (l : List Char) : Option (List Char) :=
  match l.dropWhile Char.isDigit with
  | x :: r =>
    if x == '.' && okOctet (l.takeWhile Char.isDigit) then some r else none
  | [] => none

/-- Match the trailing `\d{1,3}\/\d{1,2}$` of the CIDR regex. -/
def cidrTail (l : List Char) : Bool :=
  match l.dropWhile Char.isDigit with
  | x :: m => x == '/' && okOctet (l.takeWhile Char.isDigit) && okMask m
  | [] => false

/-- The anchored CIDR regex `/^(\d{1,3}\.){3}\d{1,3}\/\d{1,2}$/` on a
character list: three `\d{1,3}\.` groups, then `\d{1,3}\/\d{1,2}` to the end. -/
def cidrChars (l : List Char) : Bool :=
  match chompOctetDot l with
  | some r1 =>
    match chompOctetDot r1 with
    | some r2 =>
      match chompOctetDot r2 with
      | some r3 => cidrTail r3
      | none => false
    | none => false
  | none => false

/-- `CIDR_BLOCK` regex test on a string. -/
def cidrOk (s : String) : Bool := cidrChars s.data

/-- `z.string().regex(/^(\d{1,3}\.){3}\d{1,3}\/\d{1,2}$/, ...)` applied to
`process.env.CIDR_BLOCK`. -/
def parseCidr : Option String → Except String String
  | none => .error "Required"
  | some s =>
    if cidrOk s then .ok s
    else .error "CIDR_BLOCK must be a valid CIDR"

/-- The validated configuration snapshot, `z.infer<typeof envSchema>`. -/
structure Config where
  STAGE : Stage
  PROJECT : String
  CDK_REGION : String
  CDK_ACCOUNT_ID : String
  CIDR_BLOCK : String
deriving DecidableEq, Repr

/-- The field errors contributed by one validator (zod collects these). -/
def errOf {α : Type} : Except String α → List String
  | .ok _ => []
  | .error m => [m]

/-- `envSchema.parse` inside the private constructor: validates all five
required fields, and on any failure aggregates every field error into the
single thrown error. -/
def envParse (e : Env) : Except (List String) Config :=
  let s := parseStage e.STAGE
  let p := parseMin1 "PROJECT is required" e.PROJECT
  let r := parseMin1 "CDK_REGION is required" e.CDK_REGION
  let a := parseAccount e.CDK_ACCOUNT_ID
  let c := parseCidr e.CIDR_BLOCK
  match s, p, r, a, c with
  | .ok s0, .ok p0, .ok r0, .ok a0, .ok c0 => .ok ⟨s0, p0, r0, a0, c0⟩
  | s1, p1, r1, a1, c1 =>
    .error (errOf s1 ++ errOf p1 ++ errOf r1 ++ errOf a1 ++ errOf c1)

/-- `EnvironmentConfig.getInstance`: the static `instance` field is the
state (`none` = not yet constructed). A stored instance is returned as is;
otherwise the constructor runs `envParse`, and on failure the thrown error
leaves the state unassigned. -/
def getInstance (e : Env) (st : Option Config) :
    Except (List String) Config × Option Config :=
  match st with
  | some c => (.ok c, some c)
  | none =>
    match envParse e with
    | .ok c => (.ok c, some c)
    | .error es => (.error es, none)

/-- `IEnvironmentConfig` from `lib/types/index.ts`. The last field models
the interface member named `prefix` in the source; that identifier is not
usable here, so it is called `pfx`. -/
structure IEnvironmentConfig where
  stage : String
  project : String
  region : String
  account : String
  pfx : String
deriving DecidableEq, Repr

/-- `EnvironmentConfig.getEnvironment`. -/
def getEnvironment (c : Config) : IEnvironmentConfig :=
  { stage := Stage.str c.STAGE
    project := c.PROJECT
    region := c.CDK_REGION
    account := c.CDK_ACCOUNT_ID
    pfx := c.PROJECT ++ "-" ++ Stage.str c.STAGE }

/-- `EnvironmentConfig.getPrefix`. -/
def getPrefix (c : Config) : String :=
  c.PROJECT ++ "-" ++ Stage.str c.STAGE

/-- A JavaScript number as produced by `parseInt`: either `NaN` or an
integer (the values occurring here are always integral). -/
inductive JsNum where
  | nan
  | int (n : Int)
deriving DecidableEq, Repr

/-- Decimal value of a digit list (most significant first). -/
def digitsToNat (l : List Char) : Nat :=
  l.foldl (fun a c => a * 10 + (c.toNat - 48)) 0

/-- Parse the maximal leading digit run; `NaN` when there is none. -/
def parseIntDigits (l : List Char) : JsNum :=
  match l.takeWhile Char.isDigit with
  | [] => .nan
  | d => .int (digitsToNat d)

/-- JavaScript `parseInt(s)` on the decimal strings used by this code:
skip leading spaces, an optional sign, then the maximal leading digit run;
`NaN` when no digit is found.  (The hexadecimal `0x` form never arises for
these inputs and is not modelled.) -/
def parseIntJs (s : String) : JsNum :=
  match s.data.dropWhile (fun c => c == ' ') with
  | '+' :: r => parseIntDigits r
  | '-' :: r =>
    match parseIntDigits r with
    | .nan => .nan
    | .int n => .int (-n)
  | r => parseIntDigits r

/-- JavaScript `o || d` for an optional environment variable: the default
applies when the variable is absent or the empty string (falsy). -/
def jsOr (o : Option String) (d : String) : String :=
  match o with
  | none => d
  | some s => if s = "" then d else s

/-- The value produced by `vpcConfigSchema.parse`. -/
structure VpcConfig where
  cidrBlock : String
  maxAzs : JsNum
  natGateways : JsNum
deriving DecidableEq, Repr

/-- Field errors of `maxAzs: z.number().min(1).max(3).default(2)` on a
parsed number (zod rejects `NaN` as a non-number; the default never
applies because the input is always a concrete `parseInt` result). -/
def maxAzsErrs : JsNum → List String
  | .nan => ["maxAzs: Expected number, received nan"]
  | .int m =>
    (if m < 1 then ["maxAzs: too small"] else []) ++
    (if 3 < m then ["maxAzs: too big"] else [])

/-- Field errors of `natGateways: z.number().min(0).default(0)`. -/
def natGatewaysErrs : JsNum → List String
  | .nan => ["natGateways: Expected number, received nan"]
  | .int n => if n < 0 then ["natGateways: too small"] else []

/-- `EnvironmentConfig.getVpcConfig`: re-reads the override variables,
coerces them with `parseInt`, and validates through `vpcConfigSchema`. -/
def getVpcConfig (e : Env) (c : Config) : Except (List String) VpcConfig :=
  let ma := parseIntJs (jsOr e.VPC_MAX_AZS "2")
  let ng := parseIntJs (jsOr e.VPC_NAT_GATEWAYS "0")
  match maxAzsErrs ma ++ natGatewaysErrs ng with
  | [] => .ok { cidrBlock := c.CIDR_BLOCK, maxAzs := ma, natGateways := ng }
  | es => .error es

/-- The value produced by `getRdsConfig`. -/
structure RdsConfig where
  instanceType : String
  multiAz : Bool
  allocatedStorage : JsNum
  dbName : String
  username : String
deriving DecidableEq, Repr

/-- `EnvironmentConfig.getRdsConfig`: plain defaults and coercions, no
schema validation. -/
def getRdsConfig (e : Env) : RdsConfig :=
  { instanceType := jsOr e.RDS_INSTANCE_TYPE "t3.micro"
    multiAz := e.RDS_MULTI_AZ == some "true"
    allocatedStorage := parseIntJs (jsOr e.RDS_STORAGE "20")
    dbName := jsOr e.RDS_DB_NAME "cdkapp"
    username := jsOr e.RDS_USERNAME "postgres" }

/-- The value produced by `getEc2Config`. -/
structure Ec2Config where
  instanceType : String
  keyName : Option String
deriving DecidableEq, Repr

/-- `EnvironmentConfig.getEc2Config`. -/
def getEc2Config (e : Env) : Ec2Config :=
  { instanceType := jsOr e.EC2_INSTANCE_TYPE "t3.micro"
    keyName := e.EC2_KEY_NAME }

/-- `BaseConstruct.getResourceName` from `lib/shared/base.construct.ts`. -/
def getResourceName (e : IEnvironmentConfig) (name : String) : String :=
  e.pfx ++ "-" ++ name

/-- `BaseConstruct.getCommonTags`, as the ordered key/value record literal
of the source. -/
def getCommonTags (e : IEnvironmentConfig) : List (String × String) :=
  [("Environment", e.stage), ("Project", e.project),
   ("ManagedBy", "CDK"), ("Prefix", e.pfx)]

/-- A digit group of length between `lo` and `hi`. -/
def digitRun (lo hi : Nat) (l : List Char) : Prop :=
  lo ≤ l.length ∧ l.length ≤ hi ∧ ∀ c ∈ l, c.isDigit = true

/-- The spec-side declarative reading of the CIDR pattern
`^(\d{1,3}\.){3}\d{1,3}/\d{1,2}$`: the whole string decomposes into four
1-3 digit groups separated by dots, a slash, and a 1-2 digit group.
Stated independently of `cidrChars` so the two can be proved equivalent. -/
def cidrPattern (s : String) : Prop :=
  ∃ a b c d m : List Char,
    s.data = a ++ '.' :: (b ++ '.' :: (c ++ '.' :: (d ++ '/' :: m))) ∧
    digitRun 1 3 a ∧ digitRun 1 3 b ∧ digitRun 1 3 c ∧
    digitRun 1 3 d ∧ digitRun 1 2 m

/-- A fully valid sample environment (the spec's running example). -/
def envGood : Env :=
  { STAGE := some "dev"
    PROJECT := some "test-project"
    CDK_REGION := some "us-east-1"
    CDK_ACCOUNT_ID := some "123456789012"
    CIDR_BLOCK := some "10.0.0.0/16" }

/-- The snapshot that `envParse envGood` constructs. -/
def cfgGood : Config :=
  { STAGE := .dev
    PROJECT := "test-project"
    CDK_REGION := "us-east-1"
    CDK_ACCOUNT_ID := "123456789012"
    CIDR_BLOCK := "10.0.0.0/16" }

/-- Valid environment whose CIDR block is syntactically well formed but
numerically invalid (octets above 255, mask above 32). -/
def env999 : Env :=
  { STAGE := some "dev"
    PROJECT := some "test-project"
    CDK_REGION := some "us-east-1"
    CDK_ACCOUNT_ID := some "123456789012"
    CIDR_BLOCK := some "999.999.999.999/99" }

/-- The empty environment: every variable absent. -/
def envEmpty : Env := { }

/-- Valid environment except for a CIDR block with a three-digit mask,
which the pattern rejects. -/
def envBadCidr : Env := { envGood with CIDR_BLOCK := some "10.0.0.0/999" }

/-- Valid environment with `VPC_MAX_AZS=5`: numerically coercible but
outside the schema range `[1,3]`. -/
def envAz5 : Env := { envGood with VPC_MAX_AZS := some "5" }

/-- Valid environment with `VPC_MAX_AZS=3` and `VPC_NAT_GATEWAYS=1`. -/
def envVpc31 : Env :=
  { envGood with VPC_MAX_AZS := some "3", VPC_NAT_GATEWAYS := some "1" }

/-- Valid environment with every RDS override present. -/
def envRds : Env :=
  { envGood with
    RDS_INSTANCE_TYPE := some "t3.small"
    RDS_MULTI_AZ := some "true"
    RDS_STORAGE := some "50"
    RDS_DB_NAME := some "mydb"
    RDS_USERNAME := some "admin" }

/-- Valid environment with a non-numeric `RDS_STORAGE` override. -/
def envRdsAbc : Env := { envGood with RDS_STORAGE := some "abc" }

/-! ### The CIDR regex and its declarative reading -/

theorem takeWhile_app_of_all (p : Char → Bool) (a : List Char) (x : Char)
    (r : List Char) (ha : ∀ c ∈ a, p c = true) (hx : p x = false) :
    (a ++ x :: r).takeWhile p = a ∧ (a ++ x :: r).dropWhile p = x :: r := by
  induction a with
  | nil =>
    simp [List.takeWhile_cons, List.dropWhile_cons, hx]
  | cons y ys ih =>
    have hy : p y = true := ha y (List.mem_cons_self _ _)
    have ihh := ih fun c hc => ha c (List.mem_cons_of_mem _ hc)
    simp [List.takeWhile_cons, List.dropWhile_cons, hy, ihh.1, ihh.2]

theorem okOctet_iff (l : List Char) : okOctet l = true ↔ digitRun 1 3 l := by
  simp [okOctet, digitRun, List.all_eq_true, and_assoc]

theorem okMask_iff (l : List Char) : okMask l = true ↔ digitRun 1 2 l := by
  simp [okMask, digitRun, List.all_eq_true, and_assoc]

theorem chompOctetDot_app (a r : List Char) (ha : digitRun 1 3 a) :
    chompOctetDot (a ++ '.' :: r) = some r := by
  have hdot : Char.isDigit '.' = false := by decide
  have ht := takeWhile_app_of_all Char.isDigit a '.' r ha.2.2 hdot
  unfold chompOctetDot
  rw [ht.2, ht.1]
  simp [(okOctet_iff a).2 ha]

theorem chompOctetDot_some (l r : List Char) (h : chompOctetDot l = some r) :
    ∃ a, l = a ++ '.' :: r ∧ digitRun 1 3 a := by
  unfold chompOctetDot at h
  split at h
  next x xs hd =>
    split at h
    next hx =>
      cases h
      simp only [Bool.and_eq_true, beq_iff_eq] at hx
      refine ⟨l.takeWhile Char.isDigit, ?_, (okOctet_iff _).1 hx.2⟩
      conv_lhs => rw [← List.takeWhile_append_dropWhile (p := Char.isDigit) (l := l)]
      rw [hd, hx.1]
    next hx => cases h
  next hd => cases h

theorem cidrTail_app (d m : List Char) (hd : digitRun 1 3 d)
    (hm : digitRun 1 2 m) : cidrTail (d ++ '/' :: m) = true := by
  have hsl : Char.isDigit '/' = false := by decide
  have ht := takeWhile_app_of_all Char.isDigit d '/' m hd.2.2 hsl
  unfold cidrTail
  rw [ht.2, ht.1]
  simp [(okOctet_iff d).2 hd, (okMask_iff m).2 hm]

theorem cidrTail_true (l : List Char) (h : cidrTail l = true) :
    ∃ d m, l = d ++ '/' :: m ∧ digitRun 1 3 d ∧ digitRun 1 2 m := by
  unfold cidrTail at h
  split at h
  next x xs hd =>
    simp only [Bool.and_eq_true, beq_iff_eq] at h
    refine ⟨l.takeWhile Char.isDigit, xs, ?_,
      (okOctet_iff _).1 h.1.2, (okMask_iff _).1 h.2⟩
    conv_lhs => rw [← List.takeWhile_append_dropWhile (p := Char.isDigit) (l := l)]
    rw [hd, h.1.1]
  next hd => cases h

theorem cidrChars_iff (l : List Char) :
    cidrChars l = true ↔
      ∃ a b c d m : List Char,
        l = a ++ '.' :: (b ++ '.' :: (c ++ '.' :: (d ++ '/' :: m))) ∧
        digitRun 1 3 a ∧ digitRun 1 3 b ∧ digitRun 1 3 c ∧
        digitRun 1 3 d ∧ digitRun 1 2 m := by
  constructor
  · intro h
    unfold cidrChars at h
    cases h1 : chompOctetDot l with
    | none => simp only [h1] at h; cases h
    | some r1 =>
      simp only [h1] at h
      cases h2 : chompOctetDot r1 with
      | none => simp only [h2] at h; cases h
      | some r2 =>
        simp only [h2] at h
        cases h3 : chompOctetDot r2 with
        | none => simp only [h3] at h; cases h
        | some r3 =>
          simp only [h3] at h
          obtain ⟨a, rfl, ha⟩ := chompOctetDot_some l r1 h1
          obtain ⟨b, rfl, hb⟩ := chompOctetDot_some r1 r2 h2
          obtain ⟨c, rfl, hc⟩ := chompOctetDot_some r2 r3 h3
          obtain ⟨d, m, rfl, hd4, hm⟩ := cidrTail_true r3 h
          exact ⟨a, b, c, d, m, rfl, ha, hb, hc, hd4, hm⟩
  · rintro ⟨a, b, c, d, m, rfl, ha, hb, hc, hd4, hm⟩
    simp only [cidrChars, chompOctetDot_app a _ ha, chompOctetDot_app b _ hb,
      chompOctetDot_app c _ hc, cidrTail_app d m hd4 hm]

/-! ### Aggregated validation of the required fields -/

theorem envParse_error_of (e : Env)
    (h : (parseStage e.STAGE).isOk = false ∨
      (parseMin1 "PROJECT is required" e.PROJECT).isOk = false ∨
      (parseMin1 "CDK_REGION is required" e.CDK_REGION).isOk = false ∨
      (parseAccount e.CDK_ACCOUNT_ID).isOk = false ∨
      (parseCidr e.CIDR_BLOCK).isOk = false) :
    ∃ es, es ≠ [] ∧ envParse e = .error es := by
  cases hs : parseStage e.STAGE <;>
    cases hp : parseMin1 "PROJECT is required" e.PROJECT <;>
    cases hr : parseMin1 "CDK_REGION is required" e.CDK_REGION <;>
    cases ha : parseAccount e.CDK_ACCOUNT_ID <;>
    cases hc : parseCidr e.CIDR_BLOCK <;>
    simp_all [envParse, errOf, Except.isOk, Except.toBool]

/-- C1: when a required field is invalid (bad stage, empty project or
region, malformed account id, or CIDR failing the pattern), the first
`getInstance` throws a single aggregated nonempty error, stores no
snapshot, and leaves the state unassigned, so a subsequent call on
corrected inputs constructs a valid snapshot. -/
theorem invalid_config_aggregated_error_and_retry (e : Env)
    (h : (parseStage e.STAGE).isOk = false ∨
      (parseMin1 "PROJECT is required" e.PROJECT).isOk = false ∨
      (parseMin1 "CDK_REGION is required" e.CDK_REGION).isOk = false ∨
      (parseAccount e.CDK_ACCOUNT_ID).isOk = false ∨
      (parseCidr e.CIDR_BLOCK).isOk = false) :
    (∃ es, es ≠ [] ∧ getInstance e none = (.error es, none)) ∧
    ∀ e2 c2, envParse e2 = .ok c2 →
      getInstance e2 (getInstance e none).2 = (.ok c2, some c2) := by
  obtain ⟨es, hne, hee⟩ := envParse_error_of e h
  refine ⟨⟨es, hne, by simp [getInstance, hee]⟩, ?_⟩
  intro e2 c2 h2
  simp [getInstance, hee, h2]

theorem invalid_config_aggregated_error_and_retry_witness :
    (∃ es, es ≠ [] ∧ getInstance envEmpty none = (.error es, none)) ∧
    getInstance envGood (getInstance envEmpty none).2 =
      (.ok cfgGood, some cfgGood) :=
  ⟨(invalid_config_aggregated_error_and_retry envEmpty (Or.inl rfl)).1,
   (invalid_config_aggregated_error_and_retry envEmpty
      (Or.inl rfl)).2 envGood cfgGood rfl⟩

/-- C2: on a valid environment the first `getInstance` constructs and
stores the snapshot, and every later call returns that identical stored
value without re-parsing (even if the raw inputs have changed since). -/
theorem getInstance_singleton (e : Env) (c : Config)
    (h : envParse e = .ok c) :
    getInstance e none = (.ok c, some c) ∧
    ∀ e2, getInstance e2 (getInstance e none).2 = (.ok c, some c) := by
  refine ⟨by simp [getInstance, h], fun e2 => by simp [getInstance, h]⟩

theorem getInstance_singleton_witness :
    getInstance envGood none = (.ok cfgGood, some cfgGood) ∧
    getInstance envEmpty (getInstance envGood none).2 =
      (.ok cfgGood, some cfgGood) :=
  ⟨(getInstance_singleton envGood cfgGood rfl).1,
   (getInstance_singleton envGood cfgGood rfl).2 envEmpty⟩

/-- C3: for every snapshot, the `pfx` field of `getEnvironment` is the
concatenation `project ++ "-" ++ stage`, and `getPrefix` returns the very
same string; both are recomputed from `PROJECT` and `STAGE` alone. -/
theorem derived_pfx_eq_project_dash_stage :
    ∀ c : Config,
      (getEnvironment c).pfx = c.PROJECT ++ "-" ++ Stage.str c.STAGE ∧
      getPrefix c = (getEnvironment c).pfx :=
  fun _ => ⟨rfl, rfl⟩

/-- C6: `getResourceName` is the pure concatenation of the snapshot
`pfx`, a dash, and the caller's logical name, with no normalization; on
the snapshot for project `test-project` and stage `dev` the logical name
`vpc` yields `test-project-dev-vpc`. -/
theorem getResourceName_concat :
    (∀ (e : IEnvironmentConfig) (n : String),
      getResourceName e n = e.pfx ++ "-" ++ n) ∧
    (∀ (c : Config) (n : String),
      getResourceName (getEnvironment c) n = getPrefix c ++ "-" ++ n) ∧
    getResourceName (getEnvironment cfgGood) "vpc" = "test-project-dev-vpc" :=
  ⟨fun _ _ => rfl, fun _ _ => rfl, rfl⟩

/-- C7: `getCommonTags` returns exactly the four keys `Environment`,
`Project`, `ManagedBy`, `Prefix`, bound to the snapshot stage, project,
the constant `CDK`, and the snapshot `pfx`. -/
theorem getCommonTags_exact :
    ∀ e : IEnvironmentConfig,
      (getCommonTags e).map Prod.fst =
        ["Environment", "Project", "ManagedBy", "Prefix"] ∧
      (getCommonTags e).lookup "Environment" = some e.stage ∧
      (getCommonTags e).lookup "Project" = some e.project ∧
      (getCommonTags e).lookup "ManagedBy" = some "CDK" ∧
      (getCommonTags e).lookup "Prefix" = some e.pfx := by
  intro e
  refine ⟨rfl, ?_, ?_, ?_, ?_⟩ <;> simp [getCommonTags, List.lookup]

/-- C5: load-time CIDR validation is syntactic only: the code's check
accepts exactly the strings matching the declarative reading of the
pattern; a numerically invalid block such as `999.999.999.999/99` still
constructs a snapshot; and any string outside the pattern makes
construction fail. -/
theorem cidr_validation_syntactic_only :
    (∀ s : String, cidrOk s = true ↔ cidrPattern s) ∧
    (∃ c : Config, envParse env999 = .ok c ∧
      c.CIDR_BLOCK = "999.999.999.999/99") ∧
    (∀ (e : Env) (s : String), e.CIDR_BLOCK = some s → cidrOk s = false →
      ∀ c : Config, envParse e ≠ .ok c) := by
  refine ⟨fun s => cidrChars_iff s.data, ⟨_, rfl, rfl⟩, ?_⟩
  intro e s hcs hbad c
  have hc : parseCidr e.CIDR_BLOCK = .error "CIDR_BLOCK must be a valid CIDR" := by
    rw [hcs]; simp [parseCidr, hbad]
  cases hs : parseStage e.STAGE <;>
    cases hp : parseMin1 "PROJECT is required" e.PROJECT <;>
    cases hr : parseMin1 "CDK_REGION is required" e.CDK_REGION <;>
    cases ha : parseAccount e.CDK_ACCOUNT_ID <;>
    simp [envParse, hs, hp, hr, ha, hc]

theorem cidr_validation_syntactic_only_witness :
    envParse envBadCidr ≠ .ok cfgGood :=
  cidr_validation_syntactic_only.2.2 envBadCidr "10.0.0.0/999" rfl rfl cfgGood

/-! ### Range validation inside getVpcConfig -/

theorem maxAzsErrs_nil_iff (x : JsNum) :
    maxAzsErrs x = [] ↔ ∃ m : Int, x = .int m ∧ 1 ≤ m ∧ m ≤ 3 := by
  cases x with
  | nan => simp [maxAzsErrs]
  | int m =>
    simp only [maxAzsErrs, List.append_eq_nil, JsNum.int.injEq,
      exists_eq_left']
    constructor
    · rintro ⟨h1, h2⟩
      constructor
      · by_contra hlt; simp [show m < 1 by omega] at h1
      · by_contra hlt; simp [show 3 < m by omega] at h2
    · rintro ⟨h1, h2⟩
      simp [show ¬m < 1 by omega, show ¬3 < m by omega]

theorem natGatewaysErrs_nil_iff (x : JsNum) :
    natGatewaysErrs x = [] ↔ ∃ n : Int, x = .int n ∧ 0 ≤ n := by
  cases x with
  | nan => simp [natGatewaysErrs]
  | int n =>
    simp only [natGatewaysErrs, JsNum.int.injEq, exists_eq_left']
    constructor
    · intro h1
      by_contra hlt; simp [show n < 0 by omega] at h1
    · intro h1; simp [show ¬n < 0 by omega]

theorem getVpcConfig_ok_iff (e : Env) (c : Config) :
    (getVpcConfig e c).isOk = true ↔
      maxAzsErrs (parseIntJs (jsOr e.VPC_MAX_AZS "2")) = [] ∧
      natGatewaysErrs (parseIntJs (jsOr e.VPC_NAT_GATEWAYS "0")) = [] := by
  cases hma : maxAzsErrs (parseIntJs (jsOr e.VPC_MAX_AZS "2")) <;>
    cases hng : natGatewaysErrs (parseIntJs (jsOr e.VPC_NAT_GATEWAYS "0")) <;>
    simp [getVpcConfig, hma, hng, Except.isOk, Except.toBool]

/-- C4 counterexample: the override `VPC_MAX_AZS=5` coerces cleanly to
the number 5, yet `getVpcConfig` still fails — validation beyond type
coercion of the override. -/
theorem vpc_range_validation_counterexample :
    parseIntJs (jsOr envAz5.VPC_MAX_AZS "2") = .int 5 ∧
    (getVpcConfig envAz5 cfgGood).isOk = false :=
  ⟨rfl, rfl⟩

/-- C4 amended: `getRdsConfig` and `getEc2Config` are total plain
derivations (their types rule out failure), but `getVpcConfig` also
range-validates the coerced overrides: it succeeds exactly when `maxAzs`
coerces to an integer in `[1,3]` and `natGateways` to an integer `≥ 0`,
and then returns exactly the coerced values. -/
theorem getVpcConfig_range_validates :
    (∀ (e : Env) (c : Config), (getVpcConfig e c).isOk = true ↔
      ((∃ m : Int, parseIntJs (jsOr e.VPC_MAX_AZS "2") = .int m ∧
          1 ≤ m ∧ m ≤ 3) ∧
       (∃ n : Int, parseIntJs (jsOr e.VPC_NAT_GATEWAYS "0") = .int n ∧
          0 ≤ n))) ∧
    (∀ (e : Env) (c : Config) (m n : Int),
      parseIntJs (jsOr e.VPC_MAX_AZS "2") = .int m →
      parseIntJs (jsOr e.VPC_NAT_GATEWAYS "0") = .int n →
      1 ≤ m → m ≤ 3 → 0 ≤ n →
      getVpcConfig e c = .ok ⟨c.CIDR_BLOCK, .int m, .int n⟩) := by
  constructor
  · intro e c
    rw [getVpcConfig_ok_iff, maxAzsErrs_nil_iff, natGatewaysErrs_nil_iff]
  · intro e c m n h1 h2 hm1 hm3 hn0
    have hma : maxAzsErrs (.int m) = [] :=
      (maxAzsErrs_nil_iff _).2 ⟨m, rfl, hm1, hm3⟩
    have hng : natGatewaysErrs (.int n) = [] :=
      (natGatewaysErrs_nil_iff _).2 ⟨n, rfl, hn0⟩
    simp [getVpcConfig, h1, h2, hma, hng]

theorem getVpcConfig_range_validates_witness :
    getVpcConfig envVpc31 cfgGood = .ok ⟨"10.0.0.0/16", .int 3, .int 1⟩ :=
  getVpcConfig_range_validates.2 envVpc31 cfgGood 3 1 rfl rfl
    (by norm_num) (by norm_num) (by norm_num)

/-- C8: `getVpcConfig` is re-derived from the override inputs present at
call time: with both overrides absent it yields `maxAzs = 2` and
`natGateways = 0`; with `VPC_MAX_AZS=3` and `VPC_NAT_GATEWAYS=1` it
yields `maxAzs = 3` and `natGateways = 1`. -/
theorem getVpcConfig_defaults_and_overrides :
    (∀ (e : Env) (c : Config), e.VPC_MAX_AZS = none →
      e.VPC_NAT_GATEWAYS = none →
      getVpcConfig e c = .ok ⟨c.CIDR_BLOCK, .int 2, .int 0⟩) ∧
    (∀ (e : Env) (c : Config), e.VPC_MAX_AZS = some "3" →
      e.VPC_NAT_GATEWAYS = some "1" →
      getVpcConfig e c = .ok ⟨c.CIDR_BLOCK, .int 3, .int 1⟩) := by
  have d2 : parseIntJs (jsOr (none : Option String) "2") = .int 2 := rfl
  have d0 : parseIntJs (jsOr (none : Option String) "0") = .int 0 := rfl
  have d3 : parseIntJs (jsOr (some "3") "2") = .int 3 := rfl
  have d1 : parseIntJs (jsOr (some "1") "0") = .int 1 := rfl
  constructor <;> intro e c h1 h2 <;>
    simp [getVpcConfig, h1, h2, d2, d0, d3, d1, maxAzsErrs, natGatewaysErrs]

theorem getVpcConfig_defaults_and_overrides_witness :
    getVpcConfig envGood cfgGood = .ok ⟨"10.0.0.0/16", .int 2, .int 0⟩ ∧
    getVpcConfig envVpc31 cfgGood = .ok ⟨"10.0.0.0/16", .int 3, .int 1⟩ :=
  ⟨getVpcConfig_defaults_and_overrides.1 envGood cfgGood rfl rfl,
   getVpcConfig_defaults_and_overrides.2 envVpc31 cfgGood rfl rfl⟩

/-- C9: `getRdsConfig` returns the documented defaults when no override
is present, returns exactly the overridden values when all five are
present (with numeric coercion of the storage), and sets `multiAz` true
exactly when the `RDS_MULTI_AZ` override is the string `true`. -/
theorem getRdsConfig_defaults_and_overrides :
    (∀ e : Env, e.RDS_INSTANCE_TYPE = none → e.RDS_MULTI_AZ = none →
      e.RDS_STORAGE = none → e.RDS_DB_NAME = none → e.RDS_USERNAME = none →
      getRdsConfig e = ⟨"t3.micro", false, .int 20, "cdkapp", "postgres"⟩) ∧
    (∀ e : Env, e.RDS_INSTANCE_TYPE = some "t3.small" →
      e.RDS_MULTI_AZ = some "true" → e.RDS_STORAGE = some "50" →
      e.RDS_DB_NAME = some "mydb" → e.RDS_USERNAME = some "admin" →
      getRdsConfig e = ⟨"t3.small", true, .int 50, "mydb", "admin"⟩) ∧
    (∀ e : Env, (getRdsConfig e).multiAz = true ↔
      e.RDS_MULTI_AZ = some "true") := by
  have d20 : parseIntJs "20" = .int 20 := rfl
  have d50 : parseIntJs "50" = .int 50 := rfl
  refine ⟨?_, ?_, ?_⟩
  · intro e h1 h2 h3 h4 h5
    simp [getRdsConfig, h1, h2, h3, h4, h5, d20, jsOr]
  · intro e h1 h2 h3 h4 h5
    simp [getRdsConfig, h1, h2, h3, h4, h5, d50, jsOr]
  · intro e
    simp [getRdsConfig]

theorem getRdsConfig_defaults_and_overrides_witness :
    getRdsConfig envGood = ⟨"t3.micro", false, .int 20, "cdkapp", "postgres"⟩ ∧
    getRdsConfig envRds = ⟨"t3.small", true, .int 50, "mydb", "admin"⟩ :=
  ⟨getRdsConfig_defaults_and_overrides.1 envGood rfl rfl rfl rfl rfl,
   getRdsConfig_defaults_and_overrides.2.1 envRds rfl rfl rfl rfl rfl⟩

/-- C10: a non-numeric `RDS_STORAGE` override such as `abc` is neither
rejected nor replaced by the default 20: `getRdsConfig` silently returns
`allocatedStorage = NaN`. -/
theorem rds_storage_nan_propagates (e : Env)
    (h : e.RDS_STORAGE = some "abc") :
    (getRdsConfig e).allocatedStorage = .nan ∧
    (getRdsConfig e).allocatedStorage ≠ .int 20 := by
  have d : parseIntJs (jsOr (some "abc") "20") = .nan := rfl
  refine ⟨?_, ?_⟩ <;> simp [getRdsConfig, h, d]

theorem rds_storage_nan_propagates_witness :
    (getRdsConfig envRdsAbc).allocatedStorage = .nan ∧
    (getRdsConfig envRdsAbc).allocatedStorage ≠ .int 20 :=
  rds_storage_nan_propagates envRdsAbc rfl

end CdkInit
